import Mathlib

/-!
# User-account backend: registration, login, logout, token refresh

A shallow embedding of `src/controllers/user.controller.js`, `src/models/user.model.js`,
`src/utils/asyncHandler.js` and `src/utils/cloudinary.js`.

* The document store is a list of user documents; every handler is a function from a store to
  an outcome and a store, so that writes made before a failure stay visible.
* Third-party collaborators (bcrypt, jsonwebtoken, the cloudinary uploader, `fs.unlinkSync`, the
  two string builtins `trim` and `toLowerCase`, `process.env`) are fields of `Collaborators`;
  every general theorem is stated for an arbitrary value of that structure.
* The four body fields of a registration are `BodyValue`s: `undefined`, `null`, a string, or a
  value of another kind (number, boolean, array, object). The fields of the other requests are
  `Option String`, where `none` is `undefined`.
* The store keeps a trace of the collaborator calls that were made (lookups, writes, uploads).
-/

namespace Backend

/-! ## Thrown values -/

/-- Modelled from the spec: the `ApiError` class (`utils/ApiErrors.js` is imported by the
controller but is not among the sources): a domain failure that carries a status code and a
message. -/
structure ApiError where
  statusCode : Nat
  message : String
deriving DecidableEq, Repr

/-- What a handler can throw: an `ApiError`, a language-level error, or an error raised by the
store or by a library. -/
inductive Thrown where
  | apiError (e : ApiError)
  | typeError (message : String)
  | referenceError (message : String)
  | validationError (paths : List String)
  | duplicateKey (message : String)
  | libraryError (message : String)
deriving DecidableEq, Repr

/-- The message of the `required` validator of a path: `password` declares its own, the other
paths get the default one. -/
def requiredMessage (path : String) : String :=
  if path == "password" then "Password is  required"
  else "Path \x60" ++ path ++ "\x60 is required."

/-- The `message` property of a thrown value. -/
def Thrown.message : Thrown → String
  | .apiError e => e.message
  | .typeError m => m
  | .referenceError m => m
  | .validationError ps =>
    "User validation failed: " ++ ", ".intercalate (ps.map (fun p => p ++ ": " ++ requiredMessage p))
  | .duplicateKey m => m
  | .libraryError m => m

/-! ## JavaScript value conventions -/

/-- Truthiness of a value that is `undefined` or a string: only a non-empty string is truthy. -/
def truthy : Option String → Bool
  | some s => s != ""
  | none => false

/-- The operator `a || b` on such values. -/
def jsOr (a b : Option String) : Option String :=
  if truthy a then a else b

/-! ## Collaborators -/

/-- Payload embedded in a token: the access token carries all three entries, the refresh token
only `_id`. -/
structure Payload where
  _id : Nat
  email : Option String
  username : Option String
deriving DecidableEq, Repr

/-- External collaborators and ambient configuration. -/
structure Collaborators where
  /-- The builtin `String.prototype.trim`. -/
  trim : String → String
  /-- The builtin `String.prototype.toLowerCase`. -/
  toLowerCase : String → String
  /-- The call `bcrypt.hash(plaintext, 10)`. -/
  bcryptHash : String → String
  /-- The call `bcrypt.compare(plaintext, digest)`; it may reject. -/
  bcryptCompare : Option String → String → Except String Bool
  /-- The call `jwt.sign(payload, secret, { expiresIn })` at a given time. -/
  jwtSign : Payload → String → String → Nat → String
  /-- The call `jwt.verify(token, secret)` at a given time; the error is the message thrown. -/
  jwtVerify : String → String → Nat → Except String Payload
  /-- The call `cloudinary.uploader.upload(path, ...)`: the `url` of the response, or `none`
  when it throws. -/
  cloudinaryUpload : String → Option String
  /-- Whether `fs.unlinkSync(path)` succeeds; it throws when the file is missing. -/
  unlinkSync : String → Bool
  ACCESS_TOKEN_SECRET : String
  ACCESS_TOKEN_EXPIRY : String
  REFRESH_TOKEN_SECRET : String
  REFRESH_TOKEN_EXPIRY : String

/-! ## The user model (`user.model.js`) -/

/-- A stored document of `userSchema`. `refreshToken` and `coverImage` are not required. -/
structure UserDoc where
  _id : Nat
  username : String
  email : String
  fullName : String
  avatar : String
  coverImage : Option String
  watchHistory : List Nat
  password : String
  refreshToken : Option String
  createdAt : Nat
  updatedAt : Nat
deriving DecidableEq, Repr

/-- Calls made to the store, the uploader and the local file system. -/
inductive Event where
  | findOne (username email : Option String)
  | findById (id : Nat)
  | create
  | save (id : Nat)
  | findByIdAndUpdate (id : Nat)
  | upload (localFilePath : String)
  | unlink (localFilePath : String)
deriving DecidableEq, Repr

/-- The document store together with the trace of collaborator calls, oldest first. -/
structure Store where
  users : List UserDoc
  trace : List Event
deriving DecidableEq, Repr

/-- Append an event to the trace. -/
def Store.record (db : Store) (e : Event) : Store :=
  { db with trace := db.trace ++ [e] }

/-- A query value matches a stored string field after the schema setter `lowercase: true` has
been applied to it; `undefined` matches no stored string. -/
def matchesField (C : Collaborators) (q : Option String) (stored : String) : Bool :=
  match q with
  | some s => C.toLowerCase s == stored
  | none => false

/-- The filter `{ $or: [{ username }, { email }] }`. -/
def orFilter (C : Collaborators) (username email : Option String) (u : UserDoc) : Bool :=
  matchesField C username u.username || matchesField C email u.email

/-- The query `User.findOne({ $or: [{ username }, { email }] })`. -/
def User.findOne (C : Collaborators) (username email : Option String) (db : Store) :
    Option UserDoc × Store :=
  (db.users.find? (orFilter C username email), db.record (.findOne username email))

/-- The query `User.findById(id)`. -/
def User.findById (id : Nat) (db : Store) : Option UserDoc × Store :=
  (db.users.find? (fun u => u._id == id), db.record (.findById id))

/-- Fields handed to `User.create`. -/
structure CreateFields where
  fullName : Option String
  avatar : Option String
  coverImage : Option String
  email : Option String
  username : Option String
  password : Option String
deriving DecidableEq, Repr

/-- The `required` validator of a string path: the value must be a non-empty string. -/
def requiredFails (name : String) (v : Option String) : List String :=
  if truthy v then [] else [name]

/-- Paths of `userSchema` whose `required` validator fails. -/
def validationFailures (f : CreateFields) : List String :=
  requiredFails "username" f.username ++ requiredFails "email" f.email ++
  requiredFails "fullName" f.fullName ++ requiredFails "avatar" f.avatar ++
  requiredFails "password" f.password

/-- An identifier that no stored document has. -/
def freshId (users : List UserDoc) : Nat :=
  (users.map (fun u => u._id)).foldr max 0 + 1

/-- The call `User.create(fields)`: setters (`lowercase`), validation, the `pre("save")` hook that hashes
the password of a new document, the two unique indexes, timestamps. -/
def User.create (C : Collaborators) (f : CreateFields) (now : Nat) (db : Store) :
    Except Thrown UserDoc × Store :=
  let db1 := db.record .create
  match validationFailures f with
  | p :: ps => (.error (.validationError (p :: ps)), db1)
  | [] =>
    let username := C.toLowerCase (f.username.getD "")
    let email := C.toLowerCase (f.email.getD "")
    if db.users.any (fun u => u.username == username || u.email == email) then
      (.error (.duplicateKey "E11000 duplicate key error"), db1)
    else
      let doc : UserDoc :=
        { _id := freshId db.users
          username := username
          email := email
          fullName := f.fullName.getD ""
          avatar := f.avatar.getD ""
          coverImage := f.coverImage
          watchHistory := []
          password := C.bcryptHash (f.password.getD "")
          refreshToken := none
          createdAt := now
          updatedAt := now }
      (.ok doc, { db1 with users := db.users ++ [doc] })

/-- The call `user.save({ validateBeforeSave: false })` for a document whose password was not modified:
the stored document with that identifier is replaced, `updatedAt` is refreshed. -/
def UserDoc.save (user : UserDoc) (now : Nat) (db : Store) : Store :=
  let stored := { user with updatedAt := now }
  { (db.record (.save user._id)) with
    users := db.users.map (fun u => if u._id == user._id then stored else u) }

/-- The update `User.findByIdAndUpdate(id, { $unset: { refreshToken: 1 } }, { new: true })`. -/
def User.findByIdAndUpdate_unsetRefreshToken (id : Nat) (now : Nat) (db : Store) : Store :=
  { (db.record (.findByIdAndUpdate id)) with
    users := db.users.map (fun u =>
      if u._id == id then { u with refreshToken := none, updatedAt := now } else u) }

/-- The method `userSchema.methods.isPasswordCorrect`. -/
def UserDoc.isPasswordCorrect (C : Collaborators) (user : UserDoc) (password : Option String) :
    Except String Bool :=
  C.bcryptCompare password user.password

/-- The method `userSchema.methods.generateAccessToken`. -/
def UserDoc.generateAccessToken (C : Collaborators) (user : UserDoc) (now : Nat) : String :=
  C.jwtSign { _id := user._id, email := some user.email, username := some user.username }
    C.ACCESS_TOKEN_SECRET C.ACCESS_TOKEN_EXPIRY now

/-- The method `userSchema.methods.generateRefreshToken`. -/
def UserDoc.generateRefreshToken (C : Collaborators) (user : UserDoc) (now : Nat) : String :=
  C.jwtSign { _id := user._id, email := none, username := none }
    C.REFRESH_TOKEN_SECRET C.REFRESH_TOKEN_EXPIRY now

/-! ## Serialised documents and field selection -/

/-- Value of one entry of a serialised document. -/
inductive FieldValue where
  | str (s : String)
  | num (n : Nat)
  | ids (l : List Nat)
deriving DecidableEq, Repr

/-- A serialised document: its entries in schema order. -/
abbrev View := List (String × FieldValue)

/-- An optional string path contributes an entry only when it is set. -/
def optionalEntry (name : String) : Option String → View
  | some s => [(name, .str s)]
  | none => []

/-- All entries of a stored document. -/
def UserDoc.toObject (u : UserDoc) : View :=
  [("_id", .num u._id), ("username", .str u.username), ("email", .str u.email),
   ("fullName", .str u.fullName), ("avatar", .str u.avatar)] ++
  optionalEntry "coverImage" u.coverImage ++
  [("watchHistory", .ids u.watchHistory), ("password", .str u.password)] ++
  optionalEntry "refreshToken" u.refreshToken ++
  [("createdAt", .num u.createdAt), ("updatedAt", .num u.updatedAt), ("__v", .num 0)]

/-- The projection `.select("-a -b")`: the document without the excluded paths. -/
def UserDoc.select (excluded : List String) (u : UserDoc) : View :=
  u.toObject.filter (fun kv => !excluded.contains kv.1)

/-- The exclusion list of `"-password -refreshToken"`. -/
def secretPaths : List String := ["password", "refreshToken"]

/-! ## `cloudinary.js` -/

/-- The error of `fs.unlinkSync` on a missing file. -/
def unlinkError (p : String) : Thrown :=
  .libraryError ("ENOENT: no such file or directory, unlink \x27" ++ p ++ "\x27")

/-- The function `uploadOnCloudinary(localFilePath)`: `null` for a missing path; otherwise the
upload is attempted and the local file is removed, in the `try` block after a successful upload
and in the `catch` block after a failed one. When the removal in the `try` block throws, the
`catch` block attempts it again; a removal that throws in the `catch` block rejects the call.
The result is the `url` of the response. -/
def uploadOnCloudinary (C : Collaborators) (localFilePath : Option String) (db : Store) :
    Except Thrown (Option String) × Store :=
  match localFilePath with
  | none => (.ok none, db)
  | some p =>
    if p == "" then (.ok none, db)
    else
      let db1 := db.record (.upload p)
      match C.cloudinaryUpload p with
      | some url =>
        if C.unlinkSync p then (.ok (some url), db1.record (.unlink p))
        else (.error (unlinkError p), (db1.record (.unlink p)).record (.unlink p))
      | none =>
        if C.unlinkSync p then (.ok none, db1.record (.unlink p))
        else (.error (unlinkError p), db1.record (.unlink p))

/-! ## Requests and responses -/

/-- One uploaded file as described by the multipart middleware. -/
structure FileEntry where
  path : Option String
deriving DecidableEq, Repr

/-- The `req.files` object. -/
structure Files where
  avatar : Option (List FileEntry)
  coverImage : Option (List FileEntry)
deriving DecidableEq, Repr

/-- A value of `req.body` as the guard of `registerUser` can tell them apart: the two nullish
values, a string, or a value of another kind (number, boolean, array, object), none of which has
a `trim` or a `toLowerCase` method. -/
inductive BodyValue where
  | undefined
  | null
  | str (s : String)
  | other
deriving DecidableEq, Repr

/-- The string a body value stands for where a string is expected; nullish values stand for
none. A value of another kind never reaches such a place, see `someBlank_false_no_other`. -/
def BodyValue.text : BodyValue → Option String
  | .str s => some s
  | _ => none

/-- Request of `registerUser`: the four fields read from `req.body`, and `req.files`. -/
structure RegisterRequest where
  fullName : BodyValue
  email : BodyValue
  password : BodyValue
  username : BodyValue
  files : Option Files
deriving DecidableEq, Repr

/-- Request of `loginUser`. -/
structure LoginRequest where
  email : Option String
  username : Option String
  password : Option String
deriving DecidableEq, Repr

/-- Request of `logoutUser`: `req.user._id` as set by the authentication gate. -/
structure LogoutRequest where
  userId : Nat
deriving DecidableEq, Repr

/-- Request of `refreshAccessToken`: `req.cookies.refreshToken` and `req.body.refreshToken`. -/
structure RefreshRequest where
  cookieRefreshToken : Option String
  bodyRefreshToken : Option String
deriving DecidableEq, Repr

/-- A cookie set with `res.cookie(name, value, options)`. -/
structure Cookie where
  name : String
  value : Option String
  httpOnly : Bool
  secure : Bool
deriving DecidableEq, Repr

/-- The JSON body of a response; an entry that is `none` is absent. -/
structure ResponseBody where
  status : Nat
  message : String
  createdUser : Option View := none
  user : Option View := none
  accessToken : Option String := none
  refreshToken : Option String := none
deriving DecidableEq, Repr

/-- What a handler sends. `statusCode` is 200 unless `res.status` is called. -/
structure Response where
  statusCode : Nat := 200
  cookies : List Cookie := []
  clearedCookies : List String := []
  body : ResponseBody
deriving DecidableEq, Repr

/-- Outcome of a route handler: a response was sent, or `next(err)` was called. -/
inductive Outcome where
  | sent (res : Response)
  | next (err : Thrown)
deriving DecidableEq, Repr

/-- The wrapper `asyncHandler(requestHandler)`: a rejection of the handler is passed to `next`. -/
def asyncHandler {Req : Type} (requetHandler : Req → Nat → Store → Except Thrown Response × Store)
    (req : Req) (now : Nat) (db : Store) : Outcome × Store :=
  match requetHandler req now db with
  | (.ok res, db1) => (.sent res, db1)
  | (.error err, db1) => (.next err, db1)

/-- Shorthand for `throw new ApiError(status, message)`. -/
def throwApi {α : Type} (status : Nat) (message : String) (db : Store) : Except Thrown α × Store :=
  (.error (.apiError { statusCode := status, message := message }), db)

/-! ## `user.controller.js` -/

/-- The call `fields.some((field) => field?.trim() === "")`: the fields are visited in order and
the visit stops at the first blank string. For a nullish field the optional call yields
`undefined`, which is not the empty string; for a value of another kind `field.trim` is
`undefined` and calling it throws. -/
def someBlank (C : Collaborators) : List BodyValue → Except Thrown Bool
  | [] => .ok false
  | .str s :: rest => if C.trim s == "" then .ok true else someBlank C rest
  | .undefined :: rest => someBlank C rest
  | .null :: rest => someBlank C rest
  | .other :: _ => .error (.typeError "field?.trim is not a function")

/-- The expression `req.files?.avatar[0]?.path`: only `req.files` and the first file are guarded
by an optional chain, the `avatar` entry is not. -/
def avatarLocalPath (files : Option Files) : Except Thrown (Option String) :=
  match files with
  | none => .ok none
  | some fs =>
    match fs.avatar with
    | none => .error (.typeError "Cannot read properties of undefined (reading \x270\x27)")
    | some [] => .ok none
    | some (f :: _) => .ok f.path

/-- The guarded lookup of the cover image path: `req.files` must be set and `coverImage` must be
a non-empty array. -/
def coverImageLocalPath (files : Option Files) : Option String :=
  match files with
  | none => none
  | some fs =>
    match fs.coverImage with
    | some (f :: _) => f.path
    | _ => none

/-- Body of `registerUser`. -/
def registerUserBody (C : Collaborators) (req : RegisterRequest) (now : Nat) (db : Store) :
    Except Thrown Response × Store :=
  match someBlank C [req.fullName, req.email, req.password, req.username] with
  | .error e => (.error e, db)
  | .ok true => throwApi 400 "All fields are required" db
  | .ok false =>
    match User.findOne C req.username.text req.email.text db with
    | (some _, db1) => throwApi 409 "User with username or email already exist" db1
    | (none, db1) =>
      match avatarLocalPath req.files with
      | .error e => (.error e, db1)
      | .ok avatarPath =>
        if !truthy avatarPath then throwApi 400 "Avatar file is required" db1
        else
          match uploadOnCloudinary C avatarPath db1 with
          | (.error e, db2) => (.error e, db2)
          | (.ok avatar, db2) =>
            match uploadOnCloudinary C (coverImageLocalPath req.files) db2 with
            | (.error e, db3) => (.error e, db3)
            | (.ok coverImage, db3) =>
              match avatar with
              | none => throwApi 400 "Avatar file is required" db3
              | some avatarUrl =>
                match req.username with
                | .undefined =>
                  (.error (.typeError
                    "Cannot read properties of undefined (reading \x27toLowerCase\x27)"), db3)
                | .null =>
                  (.error (.typeError
                    "Cannot read properties of null (reading \x27toLowerCase\x27)"), db3)
                | .other =>
                  (.error (.typeError "username.toLowerCase is not a function"), db3)
                | .str username =>
                  match User.create C
                      { fullName := req.fullName.text
                        avatar := some avatarUrl
                        coverImage := some (coverImage.getD "")
                        email := req.email.text
                        username := some (C.toLowerCase username)
                        password := req.password.text } now db3 with
                  | (.error e, db4) => (.error e, db4)
                  | (.ok user, db4) =>
                    match User.findById user._id db4 with
                    | (none, db5) => throwApi 500 "Something went wrong while creating user" db5
                    | (some created, db5) =>
                      (.ok { body :=
                              { status := 201
                                message := "User Registered Successfully"
                                createdUser := some (created.select secretPaths) } }, db5)

/-- The route handler `registerUser`. -/
def registerUser (C : Collaborators) : RegisterRequest → Nat → Store → Outcome × Store :=
  asyncHandler (registerUserBody C)

/-- An object with string-valued properties, as returned by the token generator. -/
abbrev TokenObject := List (String × String)

/-- The function `generateRefreshTokenAndAccessToken(userId)`: any failure inside the `try` block, such as a
missing user, is rethrown as status 500. -/
def generateRefreshTokenAndAccessToken (C : Collaborators) (userId : Nat) (now : Nat)
    (db : Store) : Except Thrown TokenObject × Store :=
  match User.findById userId db with
  | (none, db1) => throwApi 500 "Something went wrong while generating token" db1
  | (some user, db1) =>
    let accessToken := user.generateAccessToken C now
    let refreshToken := user.generateRefreshToken C now
    let db2 := UserDoc.save { user with refreshToken := some refreshToken } now db1
    (.ok [("accessToken", accessToken), ("refreshToken", refreshToken)], db2)

/-- The cookie options `{ httpOnly: true, secure: true }`. -/
def secureCookie (name : String) (value : Option String) : Cookie :=
  { name := name, value := value, httpOnly := true, secure := true }

/-- Body of `loginUser`. -/
def loginUserBody (C : Collaborators) (req : LoginRequest) (now : Nat) (db : Store) :
    Except Thrown Response × Store :=
  if !truthy (jsOr req.email req.username) then
    throwApi 400 "Email or Username is required" db
  else
    match User.findOne C req.username req.email db with
    | (none, db1) => throwApi 400 "User does not exist" db1
    | (some user, db1) =>
      match user.isPasswordCorrect C req.password with
      | .error m => (.error (.libraryError m), db1)
      | .ok false => throwApi 400 "Please enter valid password" db1
      | .ok true =>
        match User.findById user._id db1 with
        | (loggedInUser, db2) =>
          match generateRefreshTokenAndAccessToken C user._id now db2 with
          | (.error e, db3) => (.error e, db3)
          | (.ok tokens, db3) =>
            let accessToken := tokens.lookup "accessToken"
            let refreshToken := tokens.lookup "refreshToken"
            (.ok { statusCode := 200
                   cookies := [secureCookie "accessToken" accessToken,
                               secureCookie "refreshToken" refreshToken]
                   body :=
                    { status := 200
                      message := "LoggedIn sucessfully"
                      user := loggedInUser.map (UserDoc.select secretPaths)
                      accessToken := accessToken
                      refreshToken := refreshToken } }, db3)

/-- The route handler `loginUser`. -/
def loginUser (C : Collaborators) : LoginRequest → Nat → Store → Outcome × Store :=
  asyncHandler (loginUserBody C)

/-- Body of `logoutUser`. -/
def logoutUserBody (req : LogoutRequest) (now : Nat) (db : Store) :
    Except Thrown Response × Store :=
  let db1 := User.findByIdAndUpdate_unsetRefreshToken req.userId now db
  (.ok { statusCode := 200
         clearedCookies := ["accessToken", "refreshToken"]
         body := { status := 200, message := "User Logout successfully" } }, db1)

/-- The route handler `logoutUser`. -/
def logoutUser : LogoutRequest → Nat → Store → Outcome × Store :=
  asyncHandler logoutUserBody

/-- The two identifiers that `refreshAccessToken` uses free: what, if anything, the module scope
of the controller binds them to. `jwt` stands for its `verify` method. -/
structure ControllerScope where
  jwt : Option (String → String → Nat → Except String Payload)
  generateAccessAndRefereshTokens :
    Option (Nat → Nat → Store → Except Thrown TokenObject × Store)

/-- The scope of `user.controller.js`: it imports `asyncHandler`, `ApiError`, `User` and
`uploadOnCloudinary`, and defines `registerUser`, `loginUser`,
`generateRefreshTokenAndAccessToken`, `logoutUser` and `refreshAccessToken`; neither `jwt` nor
`generateAccessAndRefereshTokens` is among them. -/
def controllerScope : ControllerScope :=
  { jwt := none, generateAccessAndRefereshTokens := none }

/-- The `try` block of `refreshAccessToken`. -/
def refreshAccessTokenTry (sc : ControllerScope) (C : Collaborators)
    (incomingRefreshToken : String) (now : Nat) (db : Store) : Except Thrown Response × Store :=
  match sc.jwt with
  | none => (.error (.referenceError "jwt is not defined"), db)
  | some verify =>
    match verify incomingRefreshToken C.REFRESH_TOKEN_SECRET now with
    | .error m => (.error (.libraryError m), db)
    | .ok decodedToken =>
      match User.findById decodedToken._id db with
      | (none, db1) => throwApi 401 "Invalid refresh token" db1
      | (some user, db1) =>
        if some incomingRefreshToken != user.refreshToken then
          throwApi 401 "Refresh token is expired or used" db1
        else
          match sc.generateAccessAndRefereshTokens with
          | none =>
            (.error (.referenceError "generateAccessAndRefereshTokens is not defined"), db1)
          | some generate =>
            match generate user._id now db1 with
            | (.error e, db2) => (.error e, db2)
            | (.ok tokens, db2) =>
              let accessToken := tokens.lookup "accessToken"
              let newRefreshToken := tokens.lookup "newRefreshToken"
              (.ok { statusCode := 200
                     cookies := [secureCookie "accessToken" accessToken,
                                 secureCookie "refreshToken" newRefreshToken]
                     body :=
                      { status := 200
                        message := "Token Refresh Successfully"
                        accessToken := accessToken
                        refreshToken := newRefreshToken } }, db2)

/-- The `catch` clause of `refreshAccessToken`:
`throw new ApiError(401, error?.message || "Invalid refresh token")`. -/
def refreshCatch (error : Thrown) : Thrown :=
  .apiError { statusCode := 401
              message := if error.message != "" then error.message else "Invalid refresh token" }

/-- Body of `refreshAccessToken`, for a given binding of its free identifiers. -/
def refreshAccessTokenBody (sc : ControllerScope) (C : Collaborators) (req : RefreshRequest)
    (now : Nat) (db : Store) : Except Thrown Response × Store :=
  match jsOr req.cookieRefreshToken req.bodyRefreshToken with
  | none => throwApi 401 "unauthorized request" db
  | some incomingRefreshToken =>
    if incomingRefreshToken == "" then throwApi 401 "unauthorized request" db
    else
      match refreshAccessTokenTry sc C incomingRefreshToken now db with
      | (.ok res, db1) => (.ok res, db1)
      | (.error e, db1) => (.error (refreshCatch e), db1)

/-- The route handler `refreshAccessToken` as the module defines it. -/
def refreshAccessToken (C : Collaborators) : RefreshRequest → Nat → Store → Outcome × Store :=
  asyncHandler (refreshAccessTokenBody controllerScope C)

/-- The refresh token slot of the user with the given identifier, when that user exists. -/
def slotOf (db : Store) (id : Nat) : Option (Option String) :=
  (db.users.find? (fun u => u._id == id)).map (fun u => u.refreshToken)

/-! ## Sample collaborators and stores -/

/-- Lower-casing of the ASCII letters. -/
def asciiLower (s : String) : String :=
  String.mk (s.data.map Char.toLower)

/-- Removal of leading and trailing blanks. -/
def stripBlanks (s : String) : String :=
  String.mk ((s.data.dropWhile (fun c => c == ' ')).reverse.dropWhile (fun c => c == ' ')).reverse

/-- A concrete instance of the collaborators, with tokens that spell out the identifier and the
time of issue. -/
def sampleCollaborators : Collaborators :=
  { trim := stripBlanks
    toLowerCase := asciiLower
    bcryptHash := fun p => "hash:" ++ p
    bcryptCompare := fun p d =>
      match p with
      | none => .error "data and hash arguments required"
      | some s => .ok ("hash:" ++ s == d)
    jwtSign := fun p secret _ now =>
      secret ++ "." ++ String.mk (List.replicate p._id 'u') ++ "." ++
        String.mk (List.replicate now 't')
    jwtVerify := fun token secret _ =>
      if token == secret ++ ".u.t" then .ok { _id := 1, email := none, username := none }
      else if token == secret ++ ".u.tt" then .ok { _id := 1, email := none, username := none }
      else .error "jwt malformed"
    cloudinaryUpload := fun p => some ("https://cdn/" ++ p)
    unlinkSync := fun _ => true
    ACCESS_TOKEN_SECRET := "as"
    ACCESS_TOKEN_EXPIRY := "1d"
    REFRESH_TOKEN_SECRET := "rs"
    REFRESH_TOKEN_EXPIRY := "10d" }

/-- A stored user whose refresh slot holds the given value. -/
def sampleUser (slot : Option String) : UserDoc :=
  { _id := 1
    username := "bob"
    email := "bob@example.com"
    fullName := "Bob"
    avatar := "https://cdn/a.png"
    coverImage := some ""
    watchHistory := []
    password := "hash:pw"
    refreshToken := slot
    createdAt := 0
    updatedAt := 0 }

/-- A store with the single sample user. -/
def sampleStore (slot : Option String) : Store :=
  { users := [sampleUser slot], trace := [] }

/-- A registration request with every text field set and the given files. -/
def sampleRegistration (files : Option Files) : RegisterRequest :=
  { fullName := .str "Alice"
    email := .str "alice@example.com"
    password := .str "secret"
    username := .str "Alice"
    files := files }

/-- One uploaded file at the given temporary path. -/
def fileAt (p : String) : List FileEntry := [{ path := some p }]

/-- A login of the sample user at the given time. -/
def sampleLogin (now : Nat) (db : Store) : Outcome × Store :=
  loginUser sampleCollaborators
    { email := none, username := some "bob", password := some "pw" } now db

/-- The scope in which both identifiers are bound to what their names suggest. -/
def sampleBoundScope : ControllerScope :=
  { jwt := some sampleCollaborators.jwtVerify
    generateAccessAndRefereshTokens :=
      some (generateRefreshTokenAndAccessToken sampleCollaborators) }

/-! ## Registration: validation order -/

/-- When the guard comes back false, no visited field was of another kind than string or
nullish. -/
theorem someBlank_false_no_other (C : Collaborators) (fields : List BodyValue)
    (h : someBlank C fields = .ok false) : BodyValue.other ∉ fields := by
  induction fields with
  | nil => simp
  | cons f rest ih =>
    cases f with
    | undefined => simpa [someBlank] using ih (by simpa [someBlank] using h)
    | null => simpa [someBlank] using ih (by simpa [someBlank] using h)
    | str s =>
      unfold someBlank at h
      split at h
      · simp at h
      · simpa using ih h
    | other => simp [someBlank] at h

/-- A blank string is found by the guard when only strings and nullish values come before it. -/
theorem someBlank_blank_after_texts (C : Collaborators) (pre post : List BodyValue) (s : String)
    (hpre : BodyValue.other ∉ pre) (hs : C.trim s = "") :
    someBlank C (pre ++ .str s :: post) = .ok true := by
  induction pre with
  | nil => simp [someBlank, hs]
  | cons f rest ih =>
    have hrest : BodyValue.other ∉ rest := fun hmem => hpre (List.mem_cons_of_mem _ hmem)
    cases f with
    | undefined => simpa [someBlank] using ih hrest
    | null => simpa [someBlank] using ih hrest
    | str t =>
      simp only [List.cons_append, someBlank]
      split
      · rfl
      · exact ih hrest
    | other => exact absurd (List.mem_cons_self _ _) hpre

/-- Claim C7 as stated fails: the username is the empty string, but `fullName`, which the guard
visits first, is a number; the call of its missing `trim` method throws a `TypeError`, which is
what reaches `next` instead of the 400. -/
theorem registerUser_blank_after_nonstring_counterexample :
    sampleCollaborators.trim "" = "" ∧
    registerUser sampleCollaborators
        { sampleRegistration none with fullName := .other, username := .str "" } 7
        (sampleStore none) =
      (.next (.typeError "field?.trim is not a function"), sampleStore none) := by
  decide

/-- Claim C7, amended. A registration request in which one of `fullName`, `email`, `password`,
`username` is a string whose trim is empty, and in which every field before it in that order is
a string or nullish, is answered with `ApiError` 400 "All fields are required", whatever the
fields after it and the files are, and the store comes back untouched: same documents and same
trace, so no lookup, upload or creation took place. -/
theorem registerUser_blank_field_rejected (C : Collaborators) (req : RegisterRequest)
    (now : Nat) (db : Store) (pre post : List BodyValue) (s : String)
    (hfields : [req.fullName, req.email, req.password, req.username] = pre ++ .str s :: post)
    (hpre : BodyValue.other ∉ pre)
    (hblank : C.trim s = "") :
    registerUser C req now db =
      (.next (.apiError { statusCode := 400, message := "All fields are required" }), db) := by
  have hguard := someBlank_blank_after_texts C pre post s hpre hblank
  rw [← hfields] at hguard
  simp only [registerUser, asyncHandler, registerUserBody, hguard, throwApi]

/-- Claim C7, amended, at a request whose password is whitespace only, with a null `fullName`
before it, a number as `username` after it, and no files. -/
theorem registerUser_blank_field_rejected_witness :
    registerUser sampleCollaborators
        { sampleRegistration none with
          fullName := .null, password := .str "   ", username := .other } 7
        (sampleStore none) =
      (.next (.apiError { statusCode := 400, message := "All fields are required" }),
        sampleStore none) :=
  registerUser_blank_field_rejected sampleCollaborators _ 7 (sampleStore none)
    [.null, .str "alice@example.com"] [.other] "   " rfl (by decide) (by decide)

/-- The lookup of `registerUser` finds a document as soon as one matches the filter. -/
theorem find_orFilter_isSome (C : Collaborators) (username email : Option String)
    (users : List UserDoc) (u : UserDoc) (hu : u ∈ users)
    (hmatch : orFilter C username email u = true) :
    ∃ v, users.find? (orFilter C username email) = some v := by
  cases hfind : users.find? (orFilter C username email) with
  | some v => exact ⟨v, rfl⟩
  | none =>
    rw [List.find?_eq_none] at hfind
    exact absurd hmatch (hfind u hu)

/-- Claim C6 as stated fails: the sample store holds the username `bob`, the request asks for
`bob` again but with an empty `fullName`, and the answer is the 400 of the blank-field guard,
not a 409. -/
theorem registerUser_duplicate_blank_counterexample :
    (∃ u ∈ (sampleStore none).users,
        sampleCollaborators.toLowerCase "bob" = u.username) ∧
    registerUser sampleCollaborators
        { sampleRegistration none with username := .str "bob", fullName := .str "" } 7
        (sampleStore none) =
      (.next (.apiError { statusCode := 400, message := "All fields are required" }),
        sampleStore none) := by
  decide

/-- Claim C6, amended. A registration request that passes the blank-field guard and whose
username or email, lower-cased, is the stored username or email of some document is answered
with `ApiError` 409; the documents are unchanged and the only collaborator call made is the
lookup, so nothing was uploaded or created. -/
theorem registerUser_duplicate_conflict (C : Collaborators) (req : RegisterRequest) (now : Nat)
    (db : Store) (u : UserDoc)
    (hguard : someBlank C [req.fullName, req.email, req.password, req.username] = .ok false)
    (hu : u ∈ db.users)
    (hheld : (∃ s, req.username = .str s ∧ C.toLowerCase s = u.username) ∨
             (∃ e, req.email = .str e ∧ C.toLowerCase e = u.email)) :
    (registerUser C req now db).1 =
        .next (.apiError { statusCode := 409,
                           message := "User with username or email already exist" }) ∧
    (registerUser C req now db).2.users = db.users ∧
    (registerUser C req now db).2.trace =
      db.trace ++ [.findOne req.username.text req.email.text] := by
  have hmatch : orFilter C req.username.text req.email.text u = true := by
    rcases hheld with ⟨s, hs, hl⟩ | ⟨e, he, hl⟩
    · simp [orFilter, matchesField, hs, hl, BodyValue.text]
    · simp [orFilter, matchesField, he, hl, BodyValue.text]
  obtain ⟨v, hv⟩ :=
    find_orFilter_isSome C req.username.text req.email.text db.users u hu hmatch
  have hbody : registerUserBody C req now db =
      throwApi 409 "User with username or email already exist"
        (db.record (.findOne req.username.text req.email.text)) := by
    simp only [registerUserBody, hguard, User.findOne, hv]
  unfold registerUser asyncHandler
  rw [hbody]
  exact ⟨rfl, rfl, rfl⟩

/-- Claim C6, amended, at a request that repeats the stored username in upper case. -/
theorem registerUser_duplicate_conflict_witness :
    (registerUser sampleCollaborators
        { sampleRegistration none with username := .str "BOB" } 7 (sampleStore none)).1 =
        .next (.apiError { statusCode := 409,
                           message := "User with username or email already exist" }) ∧
    (registerUser sampleCollaborators
        { sampleRegistration none with username := .str "BOB" } 7 (sampleStore none)).2.users =
        (sampleStore none).users ∧
    (registerUser sampleCollaborators
        { sampleRegistration none with username := .str "BOB" } 7 (sampleStore none)).2.trace =
        (sampleStore none).trace ++ [.findOne (some "BOB") (some "alice@example.com")] :=
  registerUser_duplicate_conflict sampleCollaborators _ 7 (sampleStore none) (sampleUser none)
    rfl (by decide) (Or.inl ⟨"BOB", rfl, by decide⟩)

/-! ## Registration: the avatar and absent fields -/

/-- Claim C5 at its three shapes of a request without avatar, every text field being valid and
the identity free. Without a `files` object and with an empty `avatar` list the answer is
`ApiError` 400 "Avatar file is required". With a `files` object that has no `avatar` entry (here
it carries a cover image only) the unguarded index `avatar[0]` throws a `TypeError`, which is
what reaches `next` instead of the `ApiError`. No document is created in any of the three. -/
theorem registerUser_missing_avatar_entry_throws :
    registerUser sampleCollaborators (sampleRegistration none) 7 (sampleStore none) =
      (.next (.apiError { statusCode := 400, message := "Avatar file is required" }),
        (sampleStore none).record (.findOne (some "Alice") (some "alice@example.com"))) ∧
    registerUser sampleCollaborators
        (sampleRegistration (some { avatar := some [], coverImage := none })) 7
        (sampleStore none) =
      (.next (.apiError { statusCode := 400, message := "Avatar file is required" }),
        (sampleStore none).record (.findOne (some "Alice") (some "alice@example.com"))) ∧
    registerUser sampleCollaborators
        (sampleRegistration (some { avatar := none, coverImage := some (fileAt "/tmp/c.png") }))
        7 (sampleStore none) =
      (.next (.typeError "Cannot read properties of undefined (reading \x270\x27)"),
        (sampleStore none).record (.findOne (some "Alice") (some "alice@example.com"))) := by
  decide

/-- Claim C8 at two requests with an avatar file and a free identity. When `fullName` is absent
the blank-field guard lets the request through, both uploads are attempted and `User.create`
rejects with the validation error of the schema; when `username` is absent the call
`username.toLowerCase()` throws a `TypeError`. Neither is an `ApiError` of status 400. The
documents are unchanged in both. -/
theorem registerUser_absent_field_not_400 :
    registerUser sampleCollaborators
        { sampleRegistration (some { avatar := some (fileAt "/tmp/a.png"), coverImage := none })
          with fullName := .undefined } 7 (sampleStore none) =
      (.next (.validationError ["fullName"]),
        { users := (sampleStore none).users
          trace := [.findOne (some "Alice") (some "alice@example.com"),
                    .upload "/tmp/a.png", .unlink "/tmp/a.png", .create] }) ∧
    registerUser sampleCollaborators
        { sampleRegistration (some { avatar := some (fileAt "/tmp/a.png"), coverImage := none })
          with username := .undefined } 7 (sampleStore none) =
      (.next (.typeError "Cannot read properties of undefined (reading \x27toLowerCase\x27)"),
        { users := (sampleStore none).users
          trace := [.findOne none (some "alice@example.com"),
                    .upload "/tmp/a.png", .unlink "/tmp/a.png"] }) := by
  decide

/-! ## Refresh -/

/-- In the scope of the controller, `refreshAccessToken` rejects every request with status 401
and leaves the store as it found it: the reference to `jwt` throws before any lookup. -/
theorem refreshAccessToken_rejects (C : Collaborators) (req : RefreshRequest) (now : Nat)
    (db : Store) :
    ∃ m, refreshAccessToken C req now db =
      (.next (.apiError { statusCode := 401, message := m }), db) := by
  unfold refreshAccessToken asyncHandler refreshAccessTokenBody
  cases jsOr req.cookieRefreshToken req.bodyRefreshToken with
  | none => exact ⟨"unauthorized request", rfl⟩
  | some t =>
    by_cases ht : (t == "") = true
    · exact ⟨"unauthorized request", by simp only [ht]; rfl⟩
    · refine ⟨"jwt is not defined", ?_⟩
      simp only [ht, refreshAccessTokenTry, controllerScope, refreshCatch, Thrown.message]
      rfl

/-- Claim C1 at a request that meets every condition of the claim: the sample user logs in at
time 1, which stores the refresh token `rs.u.t`; that token is then presented as a cookie, it
verifies against the refresh secret, it names the existing user 1 and it equals the stored
slot. The handler answers 401 "jwt is not defined" and the slot still holds the old token. -/
theorem refreshAccessToken_valid_token_rejected :
    slotOf (sampleLogin 1 (sampleStore none)).2 1 = some (some "rs.u.t") ∧
    sampleCollaborators.jwtVerify "rs.u.t" sampleCollaborators.REFRESH_TOKEN_SECRET 2 =
      .ok { _id := 1, email := none, username := none } ∧
    refreshAccessToken sampleCollaborators
        { cookieRefreshToken := some "rs.u.t", bodyRefreshToken := none } 2
        (sampleLogin 1 (sampleStore none)).2 =
      (.next (.apiError { statusCode := 401, message := "jwt is not defined" }),
        (sampleLogin 1 (sampleStore none)).2) := by
  exact ⟨by decide, rfl, by decide⟩

/-- Claim C2 at a superseded token: the sample user logs in at time 1 (slot `rs.u.t`) and again
at time 2 (slot `rs.u.tt`); the first token, whose signature still verifies, is then presented.
The request is rejected with status 401 and the slot is unchanged, but the message is
"jwt is not defined", not "Refresh token is expired or used". -/
theorem refreshAccessToken_superseded_token_message :
    slotOf (sampleLogin 1 (sampleStore none)).2 1 = some (some "rs.u.t") ∧
    slotOf (sampleLogin 2 (sampleLogin 1 (sampleStore none)).2).2 1 = some (some "rs.u.tt") ∧
    sampleCollaborators.jwtVerify "rs.u.t" sampleCollaborators.REFRESH_TOKEN_SECRET 3 =
      .ok { _id := 1, email := none, username := none } ∧
    refreshAccessToken sampleCollaborators
        { cookieRefreshToken := none, bodyRefreshToken := some "rs.u.t" } 3
        (sampleLogin 2 (sampleLogin 1 (sampleStore none)).2).2 =
      (.next (.apiError { statusCode := 401, message := "jwt is not defined" }),
        (sampleLogin 2 (sampleLogin 1 (sampleStore none)).2).2) := by
  exact ⟨by decide, by decide, rfl, by decide⟩

/-! ## The update of `logoutUser` -/

/-- After the update of `logoutUser`, a document with the identifier of the caller has an empty
slot. -/
theorem unset_slot_empty (id now : Nat) (db : Store) (u : UserDoc)
    (hu : u ∈ (User.findByIdAndUpdate_unsetRefreshToken id now db).users) (hid : u._id = id) :
    u.refreshToken = none := by
  simp only [User.findByIdAndUpdate_unsetRefreshToken, List.mem_map] at hu
  obtain ⟨v, _, hv⟩ := hu
  by_cases hvid : (v._id == id) = true
  · rw [if_pos hvid] at hv
    rw [← hv]
  · rw [if_neg hvid] at hv
    rw [hv] at hvid
    exact absurd (by simp [hid]) hvid

/-! ## Login -/

/-- A lookup by identifier after `save` returns the saved document. -/
theorem find_after_replace (id : Nat) (v : UserDoc) (hv : v._id = id) (l : List UserDoc)
    (u : UserDoc) (h : l.find? (fun x => x._id == id) = some u) :
    (l.map (fun x => if x._id == id then v else x)).find? (fun x => x._id == id) = some v := by
  have hvb : (v._id == id) = true := by simp [hv]
  induction l with
  | nil => simp at h
  | cons a t ih =>
    cases ha : (a._id == id) with
    | true => simp only [List.map_cons, ha, if_true, List.find?_cons, hvb]
    | false =>
      simp only [List.find?_cons, ha] at h
      simp only [List.map_cons, ha, Bool.false_eq_true, if_false, List.find?_cons]
      exact ih h

/-- A document returned by the lookup of `loginUser` can be found again by its identifier. -/
theorem find_by_id_of_mem (l : List UserDoc) (u : UserDoc) (hu : u ∈ l) :
    ∃ v, l.find? (fun x => x._id == u._id) = some v ∧ v._id = u._id := by
  cases hfind : l.find? (fun x => x._id == u._id) with
  | some v =>
    have := List.find?_some hfind
    exact ⟨v, rfl, by simpa using this⟩
  | none =>
    rw [List.find?_eq_none] at hfind
    exact absurd (by simp) (hfind u hu)

/-- Claim C3. A login request that supplies an email or a username, for which the lookup returns
a user `u` and `isPasswordCorrect` returns true for `u`, is answered with status 200. With `v`
the stored document that carries the identifier of `u` (it is `u` itself when identifiers are
unique), the access token is the signature of the identifier, email and username of `v` under
the access secret and expiry, the refresh token is the signature of the identifier alone under
the refresh secret and expiry; both are in the body and set as secure http-only cookies, the
`user` entry is the view of `v`. After the call the stored document with that identifier holds
the returned refresh token in its slot, and no other document has changed. -/
theorem loginUser_issues_and_persists (C : Collaborators) (req : LoginRequest) (now : Nat)
    (db : Store) (u : UserDoc)
    (hsupplied : truthy (jsOr req.email req.username) = true)
    (hfound : (User.findOne C req.username req.email db).1 = some u)
    (hpw : u.isPasswordCorrect C req.password = .ok true) :
    ∃ v accessToken refreshToken,
      db.users.find? (fun x => x._id == u._id) = some v ∧
      ((∀ w ∈ db.users, w._id = u._id → w = u) → v = u) ∧
      accessToken = C.jwtSign
        { _id := u._id, email := some v.email, username := some v.username }
        C.ACCESS_TOKEN_SECRET C.ACCESS_TOKEN_EXPIRY now ∧
      refreshToken = C.jwtSign { _id := u._id, email := none, username := none }
        C.REFRESH_TOKEN_SECRET C.REFRESH_TOKEN_EXPIRY now ∧
      (loginUser C req now db).1 = .sent
        { statusCode := 200
          cookies :=
            [{ name := "accessToken", value := some accessToken, httpOnly := true,
               secure := true },
             { name := "refreshToken", value := some refreshToken, httpOnly := true,
               secure := true }]
          clearedCookies := []
          body :=
            { status := 200
              message := "LoggedIn sucessfully"
              createdUser := none
              user := some (v.select secretPaths)
              accessToken := some accessToken
              refreshToken := some refreshToken } } ∧
      (loginUser C req now db).2.users = db.users.map (fun x =>
        if x._id == u._id then
          { v with refreshToken := some refreshToken, updatedAt := now }
        else x) ∧
      slotOf (loginUser C req now db).2 u._id = some (some refreshToken) := by
  simp only [User.findOne] at hfound
  have hmem : u ∈ db.users := List.mem_of_find?_eq_some hfound
  obtain ⟨v, hv, hvid⟩ := find_by_id_of_mem db.users u hmem
  have hrepl := find_after_replace u._id
    { v with refreshToken := some (C.jwtSign { _id := u._id, email := none, username := none }
        C.REFRESH_TOKEN_SECRET C.REFRESH_TOKEN_EXPIRY now), updatedAt := now }
    hvid db.users v hv
  have hout : loginUser C req now db =
      (.sent { statusCode := 200
               cookies := [secureCookie "accessToken" (some (v.generateAccessToken C now)),
                           secureCookie "refreshToken" (some (v.generateRefreshToken C now))]
               body :=
                { status := 200
                  message := "LoggedIn sucessfully"
                  user := some (v.select secretPaths)
                  accessToken := some (v.generateAccessToken C now)
                  refreshToken := some (v.generateRefreshToken C now) } },
        UserDoc.save
          { v with refreshToken := some (v.generateRefreshToken C now) } now
          (((db.record (.findOne req.username req.email)).record (.findById u._id)).record
            (.findById u._id))) := by
    simp only [loginUser, asyncHandler, loginUserBody, hsupplied, User.findOne, hfound, hpw,
      User.findById, Store.record, hv, generateRefreshTokenAndAccessToken]
    simp [List.lookup]
  rw [hout]
  refine ⟨v, _, _, hv, ?_, rfl, rfl, ?_, ?_, ?_⟩
  · intro huniq
    exact huniq v (List.mem_of_find?_eq_some hv) hvid
  · simp only [UserDoc.generateAccessToken, UserDoc.generateRefreshToken, secureCookie, hvid]
  · simp only [UserDoc.save, Store.record, UserDoc.generateRefreshToken, hvid]
  · simp only [slotOf, UserDoc.save, Store.record, UserDoc.generateRefreshToken, hvid]
    simp only [hvid] at hrepl
    rw [hrepl]
    rfl

/-- Claim C3 at the sample user logging in by email with the right password at time 1: the
tokens are the signatures `as.u.t` and `rs.u.t` of the sample signer. -/
theorem loginUser_issues_and_persists_witness :
    ∃ v accessToken refreshToken,
      (sampleStore none).users.find? (fun x => x._id == (sampleUser none)._id) = some v ∧
      ((∀ w ∈ (sampleStore none).users, w._id = (sampleUser none)._id → w = sampleUser none) →
        v = sampleUser none) ∧
      accessToken = sampleCollaborators.jwtSign
        { _id := (sampleUser none)._id, email := some v.email, username := some v.username }
        sampleCollaborators.ACCESS_TOKEN_SECRET sampleCollaborators.ACCESS_TOKEN_EXPIRY 1 ∧
      refreshToken = sampleCollaborators.jwtSign
        { _id := (sampleUser none)._id, email := none, username := none }
        sampleCollaborators.REFRESH_TOKEN_SECRET sampleCollaborators.REFRESH_TOKEN_EXPIRY 1 ∧
      (loginUser sampleCollaborators
        { email := some "BOB@example.com", username := none, password := some "pw" } 1
        (sampleStore none)).1 = .sent
        { statusCode := 200
          cookies :=
            [{ name := "accessToken", value := some accessToken, httpOnly := true,
               secure := true },
             { name := "refreshToken", value := some refreshToken, httpOnly := true,
               secure := true }]
          clearedCookies := []
          body :=
            { status := 200
              message := "LoggedIn sucessfully"
              createdUser := none
              user := some (v.select secretPaths)
              accessToken := some accessToken
              refreshToken := some refreshToken } } ∧
      (loginUser sampleCollaborators
        { email := some "BOB@example.com", username := none, password := some "pw" } 1
        (sampleStore none)).2.users = (sampleStore none).users.map (fun x =>
        if x._id == (sampleUser none)._id then
          { v with refreshToken := some refreshToken, updatedAt := 1 }
        else x) ∧
      slotOf (loginUser sampleCollaborators
        { email := some "BOB@example.com", username := none, password := some "pw" } 1
        (sampleStore none)).2 (sampleUser none)._id = some (some refreshToken) :=
  loginUser_issues_and_persists sampleCollaborators
    { email := some "BOB@example.com", username := none, password := some "pw" } 1
    (sampleStore none) (sampleUser none) (by decide) (by decide) rfl

/-- Claim C9. A login request for which the lookup returns a user and `isPasswordCorrect`
returns false for that user is answered with `ApiError` 400; no response, hence no token, is
sent, every stored document is unchanged, and the only collaborator call that may have been
made is the lookup. -/
theorem loginUser_wrong_password_rejected (C : Collaborators) (req : LoginRequest) (now : Nat)
    (db : Store) (u : UserDoc)
    (hfound : (User.findOne C req.username req.email db).1 = some u)
    (hpw : u.isPasswordCorrect C req.password = .ok false) :
    (∃ m, (loginUser C req now db).1 =
      .next (.apiError { statusCode := 400, message := m })) ∧
    (loginUser C req now db).2.users = db.users ∧
    slotOf (loginUser C req now db).2 u._id = slotOf db u._id ∧
    ((loginUser C req now db).2.trace = db.trace ∨
     (loginUser C req now db).2.trace = db.trace ++ [.findOne req.username req.email]) := by
  simp only [User.findOne] at hfound
  by_cases hs : truthy (jsOr req.email req.username) = true
  · simp only [loginUser, asyncHandler, loginUserBody, hs, User.findOne, hfound, hpw, throwApi,
      Store.record, slotOf]
    simp
  · simp only [loginUser, asyncHandler, loginUserBody, hs, throwApi, slotOf]
    simp

/-- Claim C9 at the sample user, who holds a refresh token, logging in with a wrong password. -/
theorem loginUser_wrong_password_rejected_witness :
    (∃ m, (loginUser sampleCollaborators
        { email := none, username := some "bob", password := some "nope" } 4
        (sampleStore (some "rs.u.t"))).1 =
      .next (.apiError { statusCode := 400, message := m })) ∧
    (loginUser sampleCollaborators
        { email := none, username := some "bob", password := some "nope" } 4
        (sampleStore (some "rs.u.t"))).2.users = (sampleStore (some "rs.u.t")).users ∧
    slotOf (loginUser sampleCollaborators
        { email := none, username := some "bob", password := some "nope" } 4
        (sampleStore (some "rs.u.t"))).2 (sampleUser (some "rs.u.t"))._id =
      slotOf (sampleStore (some "rs.u.t")) (sampleUser (some "rs.u.t"))._id ∧
    ((loginUser sampleCollaborators
        { email := none, username := some "bob", password := some "nope" } 4
        (sampleStore (some "rs.u.t"))).2.trace = (sampleStore (some "rs.u.t")).trace ∨
     (loginUser sampleCollaborators
        { email := none, username := some "bob", password := some "nope" } 4
        (sampleStore (some "rs.u.t"))).2.trace =
      (sampleStore (some "rs.u.t")).trace ++ [.findOne (some "bob") none]) :=
  loginUser_wrong_password_rejected sampleCollaborators
    { email := none, username := some "bob", password := some "nope" } 4
    (sampleStore (some "rs.u.t")) (sampleUser (some "rs.u.t")) (by decide) rfl

/-! ## The user view -/

/-- A selection contains no excluded path. -/
theorem select_excludes (excluded : List String) (u : UserDoc) (kv : String × FieldValue)
    (h : kv ∈ u.select excluded) : kv.1 ∉ excluded := by
  unfold UserDoc.select at h
  rw [List.mem_filter] at h
  simpa using h.2

/-- The selection without the secret paths does not depend on the password or on the refresh
slot of the document. -/
theorem select_secret_independent (u : UserDoc) (pw : String) (rt : Option String) :
    UserDoc.select secretPaths { u with password := pw, refreshToken := rt } =
      UserDoc.select secretPaths u := by
  cases rt <;> cases hrt : u.refreshToken <;>
    simp [UserDoc.select, UserDoc.toObject, optionalEntry, secretPaths, List.filter_cons, hrt]

/-- A successful `registerUser` sends the selection of a stored document. -/
theorem registerUserBody_ok (C : Collaborators) (req : RegisterRequest) (now : Nat)
    (db db1 : Store) (res : Response) (h : registerUserBody C req now db = (.ok res, db1)) :
    ∃ created ∈ db1.users, res.body.createdUser = some (created.select secretPaths) := by
  unfold registerUserBody at h
  repeat' split at h
  all_goals first
    | (simp [throwApi] at h; done)
    | skip
  rename_i created db5 hfind
  simp only [User.findById, Prod.mk.injEq] at hfind
  simp only [Prod.mk.injEq, Except.ok.injEq] at h
  obtain ⟨hres, hdb⟩ := h
  refine ⟨created, ?_, by rw [← hres]⟩
  rw [← hdb, ← hfind.2]
  exact List.mem_of_find?_eq_some hfind.1

/-- A successful `loginUser` sends the selection of a stored document. -/
theorem loginUserBody_ok (C : Collaborators) (req : LoginRequest) (now : Nat)
    (db db1 : Store) (res : Response) (h : loginUserBody C req now db = (.ok res, db1)) :
    ∃ u ∈ db.users, res.body.user = some (u.select secretPaths) := by
  unfold loginUserBody at h
  repeat' split at h
  all_goals first
    | (simp [throwApi] at h; done)
    | skip
  rename_i found dbA hone _ _ _ loggedInUser dbB hid _ tokens dbC _
  simp only [User.findOne, Prod.mk.injEq] at hone
  simp only [User.findById, Prod.mk.injEq] at hid
  simp only [Prod.mk.injEq, Except.ok.injEq] at h
  obtain ⟨v, hv, _⟩ := find_by_id_of_mem db.users found (List.mem_of_find?_eq_some hone.1)
  have hlogged : loggedInUser = some v := by
    rw [← hid.1, ← hone.2]
    exact hv
  refine ⟨v, List.mem_of_find?_eq_some hv, ?_⟩
  rw [← h.1, hlogged]
  rfl

/-- Claim C10. In every response of a successful `registerUser` the `createdUser` entry, and in
every response of a successful `loginUser` the `user` entry, is the selection of a stored
document without the paths `password` and `refreshToken`; such a selection has no entry under
either of these two names, and two documents that differ only in these two paths have the same
selection. -/
theorem responses_hide_secrets (C : Collaborators) (now : Nat) (db : Store) :
    (∀ (req : RegisterRequest) (res : Response), (registerUser C req now db).1 = .sent res →
      ∃ created ∈ (registerUser C req now db).2.users,
        res.body.createdUser = some (created.select secretPaths)) ∧
    (∀ (req : LoginRequest) (res : Response), (loginUser C req now db).1 = .sent res →
      ∃ u ∈ db.users, res.body.user = some (u.select secretPaths)) ∧
    (∀ (u : UserDoc) (kv : String × FieldValue), kv ∈ u.select secretPaths →
      kv.1 ≠ "password" ∧ kv.1 ≠ "refreshToken") ∧
    (∀ (u : UserDoc) (pw : String) (rt : Option String),
      UserDoc.select secretPaths { u with password := pw, refreshToken := rt } =
        UserDoc.select secretPaths u) := by
  refine ⟨?_, ?_, ?_, select_secret_independent⟩
  · intro req res h
    unfold registerUser asyncHandler at h ⊢
    cases hbody : registerUserBody C req now db with
    | mk r db1 =>
      rw [hbody] at h
      cases r with
      | error e => simp at h
      | ok res1 =>
        simp only [Outcome.sent.injEq] at h
        rw [← h]
        exact registerUserBody_ok C req now db db1 res1 hbody
  · intro req res h
    unfold loginUser asyncHandler at h
    cases hbody : loginUserBody C req now db with
    | mk r db1 =>
      rw [hbody] at h
      cases r with
      | error e => simp at h
      | ok res1 =>
        simp only [Outcome.sent.injEq] at h
        rw [← h]
        exact loginUserBody_ok C req now db db1 res1 hbody
  · intro u kv h
    have hne := select_excludes secretPaths u kv h
    simp only [secretPaths, List.mem_cons, List.mem_singleton, List.not_mem_nil, or_false,
      not_or] at hne
    exact hne

/-- Claim C10 at a successful registration with an avatar and at a successful login: the views
that are sent list the public paths only. -/
theorem responses_hide_secrets_witness :
    (∃ res, (registerUser sampleCollaborators
        (sampleRegistration (some { avatar := some (fileAt "/tmp/a.png"), coverImage := none }))
        7 (sampleStore none)).1 = .sent res ∧
      (res.body.createdUser.getD []).map Prod.fst =
        ["_id", "username", "email", "fullName", "avatar", "coverImage", "watchHistory",
         "createdAt", "updatedAt", "__v"]) ∧
    (∃ res, (sampleLogin 1 (sampleStore (some "old"))).1 = .sent res ∧
      ∃ u ∈ (sampleStore (some "old")).users,
        res.body.user = some (u.select secretPaths) ∧
        (u.select secretPaths).map Prod.fst =
          ["_id", "username", "email", "fullName", "avatar", "coverImage", "watchHistory",
           "createdAt", "updatedAt", "__v"]) :=
  ⟨⟨_, rfl, by decide⟩,
   ⟨_, rfl,
    match (responses_hide_secrets sampleCollaborators 1 (sampleStore (some "old"))).2.1
        { email := none, username := some "bob", password := some "pw" } _ rfl with
    | ⟨u, hu, hview⟩ => ⟨u, hu, hview, by
        simp only [sampleStore, List.mem_singleton] at hu
        subst hu
        decide⟩⟩⟩

/-! ## Refresh under other bindings of its free identifiers

The three statements below are about `refreshAccessTokenBody` for scopes other than the one of
the module; they separate what the guard on the stored slot does from what the unbound
identifiers do. -/

/-- A request gets past the `catch` clause only if its `try` block succeeds on a non-empty
incoming token. -/
theorem refreshAccessTokenBody_ok (sc : ControllerScope) (C : Collaborators)
    (req : RefreshRequest) (now : Nat) (db db1 : Store) (res : Response)
    (h : refreshAccessTokenBody sc C req now db = (.ok res, db1)) :
    ∃ t, jsOr req.cookieRefreshToken req.bodyRefreshToken = some t ∧
      refreshAccessTokenTry sc C t now db = (.ok res, db1) := by
  unfold refreshAccessTokenBody at h
  split at h
  · simp [throwApi] at h
  · rename_i t ht
    split at h
    · simp [throwApi] at h
    · split at h
      · rename_i res1 db2 htry
        simp only [Prod.mk.injEq, Except.ok.injEq] at h
        exact ⟨t, ht, by rw [htry, h.1, h.2]⟩
      · simp at h

/-- What a successful `try` block went through: `jwt` is bound and verified the token, the user
named by the payload exists, the stored slot equals the incoming token, the generator is bound
and returned the token object from which the response was built. -/
theorem refreshAccessTokenTry_ok (sc : ControllerScope) (C : Collaborators) (t : String)
    (now : Nat) (db db1 : Store) (res : Response)
    (h : refreshAccessTokenTry sc C t now db = (.ok res, db1)) :
    ∃ verify decoded user generate tokens,
      sc.jwt = some verify ∧
      verify t C.REFRESH_TOKEN_SECRET now = .ok decoded ∧
      db.users.find? (fun u => u._id == decoded._id) = some user ∧
      user.refreshToken = some t ∧
      sc.generateAccessAndRefereshTokens = some generate ∧
      generate user._id now (db.record (.findById decoded._id)) = (.ok tokens, db1) ∧
      res.statusCode = 200 ∧
      res.body.accessToken = tokens.lookup "accessToken" ∧
      res.body.refreshToken = tokens.lookup "newRefreshToken" := by
  unfold refreshAccessTokenTry at h
  split at h
  · simp at h
  · rename_i verify hjwt
    split at h
    · simp at h
    · rename_i decoded hver
      split at h
      · simp [throwApi] at h
      · rename_i user dbA hfind
        simp only [User.findById, Prod.mk.injEq] at hfind
        split at h
        · simp [throwApi] at h
        · rename_i hslot
          split at h
          · simp at h
          · rename_i generate hgen
            split at h
            · simp at h
            · rename_i tokens dbB htok
              simp only [Prod.mk.injEq, Except.ok.injEq] at h
              refine ⟨verify, decoded, user, generate, tokens, hjwt, hver, hfind.1, ?_, hgen,
                ?_, ?_, ?_, ?_⟩
              · exact (by simpa using hslot : some t = user.refreshToken).symm
              · rw [hfind.2, htok, h.2]
              · rw [← h.1]
              · rw [← h.1]
              · rw [← h.1]

/-- Whatever `jwt` is bound to, no request succeeds while `generateAccessAndRefereshTokens` is
unbound. -/
theorem refreshAccessTokenBody_fails_without_generator (sc : ControllerScope)
    (C : Collaborators) (req : RefreshRequest) (now : Nat) (db : Store)
    (hgen : sc.generateAccessAndRefereshTokens = none) :
    ∃ e, (refreshAccessTokenBody sc C req now db).1 = .error e := by
  cases hbody : refreshAccessTokenBody sc C req now db with
  | mk r db1 =>
    cases r with
    | error e => exact ⟨e, rfl⟩
    | ok res =>
      exfalso
      obtain ⟨t, _, htry⟩ := refreshAccessTokenBody_ok sc C req now db db1 res hbody
      obtain ⟨_, _, _, generate, _, _, _, _, _, hg, _⟩ :=
        refreshAccessTokenTry_ok sc C t now db db1 res htry
      rw [hgen] at hg
      exact Option.noConfusion hg

/-- With `jwt` bound to the library and the generator bound to
`generateRefreshTokenAndAccessToken`, a response that is sent has no `refreshToken` entry: the
generator returns the properties `accessToken` and `refreshToken`, the handler reads
`newRefreshToken`. -/
theorem refreshAccessTokenBody_bound_omits_refreshToken (C : Collaborators)
    (req : RefreshRequest) (now : Nat) (db db1 : Store) (res : Response)
    (h : refreshAccessTokenBody
          { jwt := some C.jwtVerify
            generateAccessAndRefereshTokens := some (generateRefreshTokenAndAccessToken C) }
          C req now db = (.ok res, db1)) :
    res.body.refreshToken = none := by
  obtain ⟨t, _, htry⟩ := refreshAccessTokenBody_ok _ C req now db db1 res h
  obtain ⟨_, _, user, generate, tokens, _, _, _, _, hg, htok, _, _, hrt⟩ :=
    refreshAccessTokenTry_ok _ C t now db db1 res htry
  simp only [Option.some.injEq] at hg
  rw [← hg] at htok
  unfold generateRefreshTokenAndAccessToken at htok
  split at htok
  · simp [throwApi] at htok
  · simp only [Prod.mk.injEq, Except.ok.injEq] at htok
    rw [hrt, ← htok.1]
    rfl

/-- Whatever the two identifiers are bound to, after `logoutUser` a refresh request presenting a
token whose payload names the caller is rejected: the stored slot is empty, so the comparison
with the incoming token fails. -/
theorem refreshAccessTokenBody_after_logout (sc : ControllerScope) (C : Collaborators)
    (uid now later : Nat) (db : Store) (req : RefreshRequest) (t : String)
    (hreq : jsOr req.cookieRefreshToken req.bodyRefreshToken = some t)
    (hname : ∀ verify p, sc.jwt = some verify →
      verify t C.REFRESH_TOKEN_SECRET later = .ok p → p._id = uid) :
    ∃ e, (refreshAccessTokenBody sc C req later
      (logoutUserBody { userId := uid } now db).2).1 = .error e := by
  cases hbody : refreshAccessTokenBody sc C req later
      (logoutUserBody { userId := uid } now db).2 with
  | mk r db1 =>
    cases r with
    | error e => exact ⟨e, rfl⟩
    | ok res =>
      exfalso
      obtain ⟨t1, ht1, htry⟩ := refreshAccessTokenBody_ok sc C req later _ db1 res hbody
      rw [hreq, Option.some.injEq] at ht1
      subst ht1
      obtain ⟨verify, decoded, user, _, _, hjwt, hver, hfind, hslot, _⟩ :=
        refreshAccessTokenTry_ok sc C t later _ db1 res htry
      have hid := hname verify decoded hjwt hver
      have hmem := List.mem_of_find?_eq_some hfind
      have huid : user._id = uid := by
        have := List.find?_some hfind
        rw [hid] at this
        simpa using this
      have hnone := unset_slot_empty uid now db user hmem huid
      rw [hnone] at hslot
      exact Option.noConfusion hslot

/-- In the bound scope the stored token of the sample user is accepted once: the slot is
rotated to `rs.u.tt`, the response carries the new access token and no refresh token; after a
logout the same request is rejected. -/
theorem refreshAccessTokenBody_bound_sample :
    (∃ res, (refreshAccessTokenBody sampleBoundScope sampleCollaborators
        { cookieRefreshToken := some "rs.u.t", bodyRefreshToken := none } 2
        (sampleStore (some "rs.u.t"))).1 = .ok res ∧
      res.body.accessToken = some "as.u.tt" ∧ res.body.refreshToken = none) ∧
    slotOf (refreshAccessTokenBody sampleBoundScope sampleCollaborators
        { cookieRefreshToken := some "rs.u.t", bodyRefreshToken := none } 2
        (sampleStore (some "rs.u.t"))).2 1 = some (some "rs.u.tt") ∧
    (refreshAccessTokenBody sampleBoundScope sampleCollaborators
        { cookieRefreshToken := some "rs.u.t", bodyRefreshToken := none } 2
        (logoutUserBody { userId := 1 } 1 (sampleStore (some "rs.u.t"))).2).1 =
      .error (.apiError { statusCode := 401, message := "Refresh token is expired or used" }) :=
  ⟨⟨_, rfl, by decide, by decide⟩, by decide, rfl⟩

/-! ## Logout -/

/-- Every failure of `refreshAccessTokenBody` is an `ApiError` of status 401. -/
theorem refreshAccessTokenBody_error_401 (sc : ControllerScope) (C : Collaborators)
    (req : RefreshRequest) (now : Nat) (db : Store) (e : Thrown)
    (h : (refreshAccessTokenBody sc C req now db).1 = .error e) :
    ∃ m, e = .apiError { statusCode := 401, message := m } := by
  unfold refreshAccessTokenBody at h
  split at h
  · exact ⟨"unauthorized request", by simpa [throwApi] using h.symm⟩
  · split at h
    · exact ⟨"unauthorized request", by simpa [throwApi] using h.symm⟩
    · split at h
      · simp at h
      · rename_i e1 _ _
        simp only [Except.error.injEq] at h
        exact ⟨_, by rw [← h]; rfl⟩

/-- A lookup by identifier after the update of `logoutUser` returns the updated form of the
document that the lookup returned before. -/
theorem find_after_unset (uid now id : Nat) (l : List UserDoc) :
    (l.map (fun u => if u._id == uid then
        { u with refreshToken := none, updatedAt := now } else u)).find?
      (fun u => u._id == id) =
    (l.find? (fun u => u._id == id)).map (fun u => if u._id == uid then
        { u with refreshToken := none, updatedAt := now } else u) := by
  induction l with
  | nil => rfl
  | cons a t ih =>
    have hid : (if (a._id == uid) = true then
        { a with refreshToken := none, updatedAt := now } else a)._id = a._id := by
      split <;> rfl
    simp only [List.map_cons, List.find?_cons, hid]
    cases (a._id == id) with
    | true => rfl
    | false => exact ih

/-- Claim C4. For every caller identity and every store, `logoutUser` answers 200 and clears both
cookies, whether or not the slot was already empty. The stored documents afterwards are the
stored documents before, with the refresh slot unset in those that carry the identity of the
caller: a caller who was stored is still stored, now with an empty slot, and the slot of every
other identity is as before. After that, under every binding of the two free identifiers of
`refreshAccessToken`, a request that presents a token whose payload names the caller is rejected
with status 401; with the bindings of the module itself every request is. -/
theorem logoutUser_revokes_session (C : Collaborators) (uid now : Nat) (db : Store) :
    (logoutUser { userId := uid } now db).1 =
      .sent { statusCode := 200
              cookies := []
              clearedCookies := ["accessToken", "refreshToken"]
              body := { status := 200, message := "User Logout successfully",
                        createdUser := none, user := none, accessToken := none,
                        refreshToken := none } } ∧
    (logoutUser { userId := uid } now db).2.users =
      db.users.map (fun u => if u._id == uid then
        { u with refreshToken := none, updatedAt := now } else u) ∧
    slotOf (logoutUser { userId := uid } now db).2 uid =
      (slotOf db uid).map (fun _ => none) ∧
    (∀ id, id ≠ uid → slotOf (logoutUser { userId := uid } now db).2 id = slotOf db id) ∧
    (∀ (sc : ControllerScope) (req : RefreshRequest) (later : Nat) (t : String),
      jsOr req.cookieRefreshToken req.bodyRefreshToken = some t →
      (∀ verify p, sc.jwt = some verify →
        verify t C.REFRESH_TOKEN_SECRET later = .ok p → p._id = uid) →
      ∃ m, (asyncHandler (refreshAccessTokenBody sc C) req later
          (logoutUser { userId := uid } now db).2).1 =
        .next (.apiError { statusCode := 401, message := m })) ∧
    (∀ (req : RefreshRequest) (later : Nat), ∃ m,
      (refreshAccessToken C req later (logoutUser { userId := uid } now db).2).1 =
        .next (.apiError { statusCode := 401, message := m })) := by
  have husers : (logoutUser { userId := uid } now db).2.users =
      db.users.map (fun u => if u._id == uid then
        { u with refreshToken := none, updatedAt := now } else u) := rfl
  refine ⟨rfl, husers, ?_, ?_, ?_, ?_⟩
  · unfold slotOf
    rw [husers, find_after_unset]
    cases hfind : db.users.find? (fun u => u._id == uid) with
    | none => rfl
    | some u =>
      have hid : u._id = uid := by simpa using List.find?_some hfind
      simp [hid]
  · intro id hne
    unfold slotOf
    rw [husers, find_after_unset]
    cases hfind : db.users.find? (fun u => u._id == id) with
    | none => rfl
    | some u =>
      have hid : u._id = id := by simpa using List.find?_some hfind
      have hno : ¬ u._id = uid := by rw [hid]; exact hne
      simp [hno]
  · intro sc req later t hreq hname
    obtain ⟨e, he⟩ := refreshAccessTokenBody_after_logout sc C uid now later db req t hreq hname
    obtain ⟨m, hm⟩ := refreshAccessTokenBody_error_401 sc C req later _ e he
    refine ⟨m, ?_⟩
    have hstore : (logoutUser { userId := uid } now db).2 =
        (logoutUserBody { userId := uid } now db).2 := rfl
    rw [hstore]
    unfold asyncHandler
    cases hbody : refreshAccessTokenBody sc C req later
        (logoutUserBody { userId := uid } now db).2 with
    | mk r db1 =>
      rw [hbody] at he
      simp only at he
      subst he
      simp only [hm]
  · intro req later
    obtain ⟨m, hm⟩ :=
      refreshAccessToken_rejects C req later (logoutUser { userId := uid } now db).2
    exact ⟨m, by rw [hm]⟩

/-- Claim C4 at the sample user, whose slot holds `rs.u.t`, with both free identifiers bound:
before the logout the slot holds the token, after it the user is still stored with an empty
slot and the request that presents the token is rejected with status 401. -/
theorem logoutUser_revokes_session_witness :
    slotOf (sampleStore (some "rs.u.t")) 1 = some (some "rs.u.t") ∧
    slotOf (logoutUser { userId := 1 } 1 (sampleStore (some "rs.u.t"))).2 1 = some none ∧
    ∃ m, (asyncHandler (refreshAccessTokenBody sampleBoundScope sampleCollaborators)
        { cookieRefreshToken := some "rs.u.t", bodyRefreshToken := none } 2
        (logoutUser { userId := 1 } 1 (sampleStore (some "rs.u.t"))).2).1 =
      .next (.apiError { statusCode := 401, message := m }) :=
  ⟨by decide, by decide,
   (logoutUser_revokes_session sampleCollaborators 1 1 (sampleStore (some "rs.u.t"))).2.2.2.2.1
     sampleBoundScope { cookieRefreshToken := some "rs.u.t", bodyRefreshToken := none } 2
     "rs.u.t" rfl
     (fun verify p hjwt hver => by
        simp only [sampleBoundScope, Option.some.injEq] at hjwt
        subst hjwt
        have hp : (Except.ok { _id := 1, email := none, username := none } :
            Except String Payload) = .ok p := hver
        simp only [Except.ok.injEq] at hp
        rw [← hp])⟩

end Backend
